import Mathlib

/-!
Shallow embedding of the socialconnect-api engagement, content and
authentication core (Mongoose models `User`, `Post`, `Comment`, `Like`;
controllers `postController`, `commentController`, `likeController`,
`userController`; middleware `auth` and `errorHandler`).

Documents are records, the document store is a record of lists, and every
controller is a function from the store (plus the authenticated user, when
the route attaches one) to `Except ApiError` of the new store and response
payload.  Counters are `Int` because the MongoDB `$inc` update operator used
by the controllers bypasses the schema `min: 0` validator and can in
principle drive a counter negative.
-/

namespace SocialConnect

/-- Model of `createError(message, statusCode)` from
`src/middleware/errorHandler.js`, together with the `name` and `code` fields
that the central `errorHandler` inspects on library-raised errors. -/
structure ApiError where
  name : String := "Error"
  message : String
  statusCode : Option Nat := none
  code : Option Nat := none
deriving Repr, DecidableEq

/-- `createError(message, statusCode = 500)` builds a plain `Error` with a
`statusCode` attached. -/
def createError (message : String) (statusCode : Nat := 500) : ApiError :=
  { name := "Error", message := message, statusCode := some statusCode }

/-- User document (`src/models/User.js`).  `password` holds the bcrypt hash
and is `none` for OAuth-only accounts.  Timestamps are abstract `Nat` ticks. -/
structure UserDoc where
  id : Nat
  username : String
  email : String
  password : Option String := none
  firstName : String
  lastName : String
  profilePicture : Option String := none
  bio : String := ""
  isActive : Bool := true
  oauthProvider : Option String := none
  oauthId : Option String := none
  lastLogin : Option Nat := none
  createdAt : Nat := 0
deriving Repr, DecidableEq

/-- Post document (`src/models/Post.js`). -/
structure PostDoc where
  id : Nat
  userId : Nat
  content : String
  imageUrl : Option String := none
  likesCount : Int := 0
  commentsCount : Int := 0
  isActive : Bool := true
  contentType : String := "text"
  tags : List String := []
  createdAt : Nat := 0
deriving Repr, DecidableEq

/-- Comment document (`src/models/Comment.js`). -/
structure CommentDoc where
  id : Nat
  postId : Nat
  userId : Nat
  content : String
  parentCommentId : Option Nat := none
  likesCount : Int := 0
  isActive : Bool := true
  isEdited : Bool := false
  createdAt : Nat := 0
deriving Repr, DecidableEq

/-- Like document (`src/models/Like.js`): polymorphic target
(`targetType` is the string discriminator `"Post"` or `"Comment"`). -/
structure LikeDoc where
  id : Nat
  userId : Nat
  targetType : String
  targetId : Nat
  isActive : Bool := true
  createdAt : Nat := 0
deriving Repr, DecidableEq

/-- The document store: one list per collection plus fresh-id counters for
the documents the controllers create. -/
structure DB where
  users : List UserDoc := []
  posts : List PostDoc := []
  comments : List CommentDoc := []
  likes : List LikeDoc := []
  nextLikeId : Nat := 0
  nextCommentId : Nat := 0
  nextPostId : Nat := 0
deriving Repr, DecidableEq

/-! ## Executable string primitives

The JavaScript string operations the controllers rely on (`trim()`,
`toLowerCase()`, prefix/suffix/substring tests for the regexes) are
embedded as structural functions over the character list so that every
definition evaluates inside the kernel. -/

/-- JS `String.prototype.trim` (and the Mongoose `trim: true` setter). -/
def jsTrim (s : String) : String :=
  String.mk (((s.data.dropWhile Char.isWhitespace).reverse.dropWhile
    Char.isWhitespace).reverse)

/-- JS `String.prototype.toLowerCase` (and the `lowercase: true` setter). -/
def jsToLower (s : String) : String :=
  String.mk (s.data.map Char.toLower)

def strStartsWith (s p : String) : Bool :=
  p.data.isPrefixOf s.data

def strEndsWith (s p : String) : Bool :=
  p.data.reverse.isPrefixOf s.data.reverse

def listContainsSub : List Char → List Char → Bool
  | [], needle => needle.isEmpty
  | a :: t, needle => needle.isPrefixOf (a :: t) || listContainsSub t needle

/-! ## Basic queries (`findById`, `findOne`) -/

def userFindById (db : DB) (id : Nat) : Option UserDoc :=
  db.users.find? (fun u => u.id == id)

def postFindById (db : DB) (id : Nat) : Option PostDoc :=
  db.posts.find? (fun p => p.id == id)

def commentFindById (db : DB) (id : Nat) : Option CommentDoc :=
  db.comments.find? (fun c => c.id == id)

def likeFindById (db : DB) (id : Nat) : Option LikeDoc :=
  db.likes.find? (fun l => l.id == id)

/-- `Like.findOne({ userId, targetType, targetId })` in
`likeSchema.statics.toggleLike`. -/
def likeFindOne (db : DB) (userId : Nat) (targetType : String) (targetId : Nat) :
    Option LikeDoc :=
  db.likes.find? (fun l =>
    l.userId == userId && l.targetType == targetType && l.targetId == targetId)

/-- `likeSchema.statics.hasUserLiked`: only an active like counts. -/
def hasUserLiked (db : DB) (userId : Nat) (targetType : String) (targetId : Nat) :
    Option LikeDoc :=
  db.likes.find? (fun l =>
    l.userId == userId && l.targetType == targetType && l.targetId == targetId
      && l.isActive)

/-- `User.findOne({ isActive: true })`: the "default user" scaffolding used
by several controllers when no authenticated user is attached. -/
def findDefaultUser (db : DB) : Option UserDoc :=
  db.users.find? (fun u => u.isActive)

/-! ## Counter updates via `findByIdAndUpdate` with `$inc`

`$inc` is applied directly by the store and does not run the schema
validators, so the `min: 0` bound on the counters is not enforced here. -/

/-- `Post.findByIdAndUpdate(id, { $inc: { likesCount: inc } })`. -/
def postIncLikes (db : DB) (id : Nat) (inc : Int) : DB :=
  { db with posts := db.posts.map (fun p =>
      if p.id == id then { p with likesCount := p.likesCount + inc } else p) }

/-- `Comment.findByIdAndUpdate(id, { $inc: { likesCount: inc } })`. -/
def commentIncLikes (db : DB) (id : Nat) (inc : Int) : DB :=
  { db with comments := db.comments.map (fun c =>
      if c.id == id then { c with likesCount := c.likesCount + inc } else c) }

/-- `Post.findByIdAndUpdate(id, { $inc: { commentsCount: inc } })`. -/
def postIncComments (db : DB) (id : Nat) (inc : Int) : DB :=
  { db with posts := db.posts.map (fun p =>
      if p.id == id then { p with commentsCount := p.commentsCount + inc } else p) }

/-! ## Like lifecycle (`src/models/Like.js`) -/

/-- The `likeSchema.pre('save')` hook: a newly created active like
increments the target's denormalized counter by one.  Saving an existing
like (`isNew` false) does not touch the counters. -/
def likePreSave (db : DB) (l : LikeDoc) (isNew : Bool) : DB :=
  if isNew && l.isActive then
    if l.targetType == "Post" then postIncLikes db l.targetId 1
    else if l.targetType == "Comment" then commentIncLikes db l.targetId 1
    else db
  else db

/-- Persist an updated like document in place (the `save()` of a document
that already exists in the collection). -/
def likeSaveExisting (db : DB) (l : LikeDoc) : DB :=
  { db with likes := db.likes.map (fun x => if x.id == l.id then l else x) }

/-- `Like.create({ userId, targetType, targetId })`: builds a fresh active
like, runs the pre-save hook (counter increment) and appends the document. -/
def likeCreate (db : DB) (userId : Nat) (targetType : String) (targetId : Nat) :
    DB × LikeDoc :=
  let l : LikeDoc := { id := db.nextLikeId, userId := userId,
                       targetType := targetType, targetId := targetId,
                       isActive := true }
  let db1 := likePreSave db l true
  ({ db1 with likes := db1.likes ++ [l], nextLikeId := db.nextLikeId + 1 }, l)

/-- `likeSchema.statics.toggleLike(userId, targetType, targetId)`: if a like
document for the triple exists (active or not) its `isActive` flag is
flipped and the target counter is updated by `+1`/`-1` accordingly;
otherwise a fresh like is created (the pre-save hook does the `+1`). -/
def likeToggleLike (db : DB) (userId : Nat) (targetType : String) (targetId : Nat) :
    DB × LikeDoc :=
  match likeFindOne db userId targetType targetId with
  | some existingLike =>
    let existingLike := { existingLike with isActive := !existingLike.isActive }
    let db1 := likeSaveExisting db existingLike
    let increment : Int := if existingLike.isActive then 1 else -1
    let db2 :=
      if targetType == "Post" then postIncLikes db1 targetId increment
      else if targetType == "Comment" then commentIncLikes db1 targetId increment
      else db1
    (db2, existingLike)
  | none => likeCreate db userId targetType targetId

/-! ## Like controllers (`src/controllers/likeController.js`) -/

/-- Result payload of the toggle route: the like document and the
`action` label (`"liked"`/`"unliked"`) derived from `result.isActive`. -/
structure ToggleResult where
  like : LikeDoc
  action : String
deriving Repr, DecidableEq

/-- The "default user" resolution shared by several controllers: use the
authenticated user when present, otherwise fall back to the first active
user in the database (the temporary scaffolding marked `SOLUCIÓN TEMPORAL`
in the source). -/
def resolveUserId (db : DB) (reqUser : Option Nat) : Except ApiError Nat :=
  match reqUser with
  | some u => Except.ok u
  | none =>
    match findDefaultUser db with
    | some defaultUser => Except.ok defaultUser.id
    | none =>
      Except.error
        (createError "No hay usuarios en el sistema. Primero crea un usuario." 400)

/-- `POST /api/likes/toggle` (`toggleLike` controller): validates the
target type, requires the target to exist and be active, then delegates to
the model-level toggle. -/
def controllerToggleLike (db : DB) (reqUser : Option Nat)
    (targetType : String) (targetId : Nat) :
    Except ApiError (DB × ToggleResult) := do
  let userId ← resolveUserId db reqUser
  if !(targetType == "Post" || targetType == "Comment") then
    throw (createError "Tipo de objetivo inválido. Debe ser Post o Comment" 400)
  if targetType == "Post" then
    match postFindById db targetId with
    | none => throw (createError "Post no encontrado" 404)
    | some target =>
      if !target.isActive then throw (createError "Post no encontrado" 404)
  else
    match commentFindById db targetId with
    | none => throw (createError "Comentario no encontrado" 404)
    | some target =>
      if !target.isActive then throw (createError "Comentario no encontrado" 404)
  let (db1, result) := likeToggleLike db userId targetType targetId
  return (db1, { like := result,
                 action := if result.isActive then "liked" else "unliked" })

/-- `POST /api/likes` (`createLike` controller): rejects when an active like
already exists, requires the target to exist and be active, then
`Like.create` (whose pre-save hook increments the counter). -/
def controllerCreateLike (db : DB) (reqUser : Option Nat)
    (targetType : String) (targetId : Nat) :
    Except ApiError (DB × LikeDoc) := do
  let userId ← resolveUserId db reqUser
  if (hasUserLiked db userId targetType targetId).isSome then
    throw (createError "Ya has dado like a este contenido" 400)
  if targetType == "Post" then
    match postFindById db targetId with
    | none => throw (createError "Post no encontrado" 404)
    | some post =>
      if !post.isActive then throw (createError "Post no encontrado" 404)
  else if targetType == "Comment" then
    match commentFindById db targetId with
    | none => throw (createError "Comentario no encontrado" 404)
    | some comment =>
      if !comment.isActive then throw (createError "Comentario no encontrado" 404)
  return likeCreate db userId targetType targetId

/-- `DELETE /api/likes/:id` (`deleteLike` controller).  The ownership check
runs only when an authenticated user is attached (`if (req.user && ...)`),
the like is soft-deleted without checking whether it was still active, and
the target counter is decremented unconditionally via `$inc: -1`. -/
def controllerDeleteLike (db : DB) (reqUser : Option Nat) (id : Nat) :
    Except ApiError DB := do
  match likeFindById db id with
  | none => throw (createError "Like no encontrado" 404)
  | some like =>
    match reqUser with
    | some u =>
      if like.userId ≠ u then
        throw (createError "No tienes permisos para eliminar este like" 403)
    | none => pure ()
    let like1 := { like with isActive := false }
    let db1 := likeSaveExisting db like1
    let db2 :=
      if like1.targetType == "Post" then postIncLikes db1 like1.targetId (-1)
      else if like1.targetType == "Comment" then
        commentIncLikes db1 like1.targetId (-1)
      else db1
    return db2

/-! ## Post lifecycle (`src/models/Post.js`, `src/controllers/postController.js`) -/

/-- Model of the image-URL validator regex
`^https?:\/\/.+\.(jpg|jpeg|png|gif|webp)$` with the `i` flag: an http or
https scheme, at least one character, then an image extension. -/
def matchesImageUrlPattern (s : String) : Bool :=
  let l := jsToLower s
  let schemeLen : Option Nat :=
    if strStartsWith l "https://" then some 8
    else if strStartsWith l "http://" then some 7
    else none
  let extLen : Option Nat :=
    if strEndsWith l ".jpeg" || strEndsWith l ".webp" then some 5
    else if strEndsWith l ".jpg" || strEndsWith l ".png" || strEndsWith l ".gif" then some 4
    else none
  match schemeLen, extLen with
  | some a, some b => decide (a + b + 1 ≤ l.length)
  | _, _ => false

/-- JavaScript truthiness of the `imageUrl` field: `null`/absent and the
empty string are falsy. -/
def imageTruthy : Option String → Bool
  | none => false
  | some s => s ≠ ""

/-- Schema validation of a post document, as run by `save()`:
`content` is required with `minlength` 1 and `maxlength` 2000 (stored
trimmed), and `imageUrl` must be falsy or match the image-URL pattern. -/
def validatePostDoc (p : PostDoc) : Bool :=
  let c := jsTrim p.content
  1 ≤ c.length && c.length ≤ 2000 &&
    (match p.imageUrl with
     | none => true
     | some v => v == "" || matchesImageUrlPattern v)

/-- The contentType computation of `postSchema.pre('save')`:
`text_image` when both `imageUrl` and `content` are truthy, `image` when
only `imageUrl` is, `text` otherwise. -/
def postComputeContentType (content : String) (imageUrl : Option String) : String :=
  if imageTruthy imageUrl && content ≠ "" then "text_image"
  else if imageTruthy imageUrl then "image"
  else "text"

/-- `postSchema.pre('save')`: recompute the derived `contentType`. -/
def postPreSave (p : PostDoc) : PostDoc :=
  { p with contentType := postComputeContentType p.content p.imageUrl }

/-- `post.save()` for a document already in the collection: validation
first (a failure raises a Mongoose `ValidationError` and persists nothing),
then the pre-save hook, then the in-place write.  Returns the saved
document alongside the new store. -/
def postSaveExisting (db : DB) (p : PostDoc) : Except ApiError (DB × PostDoc) :=
  if !validatePostDoc p then
    Except.error { name := "ValidationError",
                   message := "El contenido del post es obligatorio" }
  else
    let p1 := postPreSave p
    Except.ok ({ db with posts := db.posts.map (fun x => if x.id == p1.id then p1 else x) }, p1)

/-- `Post.create({ userId, content, imageUrl, tags })`: builds the document
with schema defaults (`trim`/`lowercase` setters on `content` and `tags`,
counters 0, active), validates, runs the pre-save hook and appends. -/
def postCreate (db : DB) (userId : Nat) (content : String)
    (imageUrl : Option String) (tags : List String) :
    Except ApiError (DB × PostDoc) :=
  let p : PostDoc := { id := db.nextPostId, userId := userId,
                       content := jsTrim content, imageUrl := imageUrl,
                       tags := tags.map (fun t => jsToLower (jsTrim t)) }
  if !validatePostDoc p then
    Except.error { name := "ValidationError",
                   message := "El contenido del post es obligatorio" }
  else
    let p1 := postPreSave p
    Except.ok ({ db with posts := db.posts ++ [p1], nextPostId := db.nextPostId + 1 }, p1)

/-- `POST /api/posts` (`createPost` controller), with the default-user
fallback. -/
def controllerCreatePost (db : DB) (reqUser : Option Nat) (content : String)
    (imageUrl : Option String) (tags : List String) :
    Except ApiError (DB × PostDoc) := do
  let userId ← resolveUserId db reqUser
  postCreate db userId content imageUrl tags

/-- The whitelisted update fields of `updatePost`: a field is merged only
when it was present in the request body (`!== undefined`); `imageUrl` may
be set to `null` (the inner `Option`). -/
structure PostUpdateFields where
  content : Option String := none
  imageUrl : Option (Option String) := none
  tags : Option (List String) := none
deriving Repr, DecidableEq

def postUpdateHasField (f : PostUpdateFields) : Bool :=
  f.content.isSome || f.imageUrl.isSome || f.tags.isSome

/-- `Object.assign(post, updateFields)` with the schema setters applied. -/
def applyPostUpdate (p : PostDoc) (f : PostUpdateFields) : PostDoc :=
  let p1 := match f.content with
            | none => p
            | some c => { p with content := jsTrim c }
  let p2 := match f.imageUrl with
            | none => p1
            | some u => { p1 with imageUrl := u }
  match f.tags with
  | none => p2
  | some t => { p2 with tags := t.map (fun s => jsToLower (jsTrim s)) }

/-- `PUT /api/posts/:id` (`updatePost` controller): looks the post up,
requires the authenticated user to be the owner (this controller reads
`req.user._id` unconditionally, so an unauthenticated request raises a
`TypeError` instead of a 403), merges the whitelisted fields and saves. -/
def controllerUpdatePost (db : DB) (reqUser : Option Nat) (id : Nat)
    (f : PostUpdateFields) : Except ApiError (DB × PostDoc) := do
  match postFindById db id with
  | none => throw (createError "Post no encontrado" 404)
  | some post =>
    match reqUser with
    | none =>
      throw { name := "TypeError",
              message := "Cannot read properties of undefined" }
    | some u =>
      if post.userId ≠ u then
        throw (createError "No tienes permisos para actualizar este post" 403)
      if !postUpdateHasField f then
        throw (createError "Debe proporcionar al menos un campo para actualizar" 400)
      postSaveExisting db (applyPostUpdate post f)

/-- `DELETE /api/posts/:id` (`deletePost` controller): owner-only soft
delete; like `updatePost` it reads `req.user._id` unconditionally. -/
def controllerDeletePost (db : DB) (reqUser : Option Nat) (id : Nat) :
    Except ApiError DB := do
  match postFindById db id with
  | none => throw (createError "Post no encontrado" 404)
  | some post =>
    match reqUser with
    | none =>
      throw { name := "TypeError",
              message := "Cannot read properties of undefined" }
    | some u =>
      if post.userId ≠ u then
        throw (createError "No tienes permisos para eliminar este post" 403)
      let (db1, _) ← postSaveExisting db { post with isActive := false }
      return db1

/-- `GET /api/posts/:id` (`getPostById` controller): public route, no
caller identity involved; a missing post and a soft-deleted post both
produce a 404. -/
def controllerGetPostById (db : DB) (id : Nat) : Except ApiError PostDoc := do
  match postFindById db id with
  | none => throw (createError "Post no encontrado" 404)
  | some post =>
    if !post.isActive then
      throw (createError "Post no disponible" 404)
    return post

/-! ## Comment lifecycle (`src/models/Comment.js`,
`src/controllers/commentController.js`) -/

/-- Schema validation of a comment document: `content` required, stored
trimmed, `minlength` 1 and `maxlength` 500. -/
def validateCommentDoc (c : CommentDoc) : Bool :=
  let s := jsTrim c.content
  1 ≤ s.length && s.length ≤ 500

/-- `comment.save()` for a document already in the collection. -/
def commentSaveExisting (db : DB) (c : CommentDoc) : Except ApiError (DB × CommentDoc) :=
  if !validateCommentDoc c then
    Except.error { name := "ValidationError",
                   message := "El contenido del comentario es obligatorio" }
  else
    Except.ok ({ db with comments := db.comments.map (fun x => if x.id == c.id then c else x) }, c)

/-- `Comment.create({ postId, userId, content, parentCommentId })`. -/
def commentCreate (db : DB) (postId userId : Nat) (content : String)
    (parentCommentId : Option Nat) : Except ApiError (DB × CommentDoc) :=
  let c : CommentDoc := { id := db.nextCommentId, postId := postId,
                          userId := userId, content := jsTrim content,
                          parentCommentId := parentCommentId }
  if !validateCommentDoc c then
    Except.error { name := "ValidationError",
                   message := "El contenido del comentario es obligatorio" }
  else
    Except.ok ({ db with comments := db.comments ++ [c],
                         nextCommentId := db.nextCommentId + 1 }, c)

/-- `POST /api/comments` (`createComment` controller): default-user
fallback, post must exist and be active, optional parent must exist and be
active, then create and `$inc` the post's `commentsCount` by one. -/
def controllerCreateComment (db : DB) (reqUser : Option Nat) (postId : Nat)
    (content : String) (parentCommentId : Option Nat) :
    Except ApiError (DB × CommentDoc) := do
  let userId ← resolveUserId db reqUser
  match postFindById db postId with
  | none => throw (createError "Post no encontrado" 404)
  | some post =>
    if !post.isActive then throw (createError "Post no encontrado" 404)
  match parentCommentId with
  | none => pure ()
  | some pc =>
    match commentFindById db pc with
    | none => throw (createError "Comentario padre no encontrado" 404)
    | some parent =>
      if !parent.isActive then
        throw (createError "Comentario padre no encontrado" 404)
  let (db1, comment) ← commentCreate db postId userId content parentCommentId
  return (postIncComments db1 postId 1, comment)

/-- `PUT /api/comments/:id` (`updateComment` controller): the ownership
check runs only when an authenticated user is attached
(`if (req.user && ...)`); then content is replaced and `isEdited` set. -/
def controllerUpdateComment (db : DB) (reqUser : Option Nat) (id : Nat)
    (content : String) : Except ApiError (DB × CommentDoc) := do
  match commentFindById db id with
  | none => throw (createError "Comentario no encontrado" 404)
  | some comment =>
    match reqUser with
    | some u =>
      if comment.userId ≠ u then
        throw (createError "No tienes permisos para actualizar este comentario" 403)
    | none => pure ()
    commentSaveExisting db { comment with content := jsTrim content, isEdited := true }

/-- `DELETE /api/comments/:id` (`deleteComment` controller): ownership
check only when authenticated, soft delete (no check that the comment was
still active), then an unconditional `$inc: { commentsCount: -1 }` on the
parent post. -/
def controllerDeleteComment (db : DB) (reqUser : Option Nat) (id : Nat) :
    Except ApiError DB := do
  match commentFindById db id with
  | none => throw (createError "Comentario no encontrado" 404)
  | some comment =>
    match reqUser with
    | some u =>
      if comment.userId ≠ u then
        throw (createError "No tienes permisos para eliminar este comentario" 403)
    | none => pure ()
    let (db1, _) ← commentSaveExisting db { comment with isActive := false }
    return postIncComments db1 comment.postId (-1)

/-- `GET /api/comments/:id` (`getCommentById` controller): public route; a
missing comment and a soft-deleted comment both produce a 404. -/
def controllerGetCommentById (db : DB) (id : Nat) : Except ApiError CommentDoc := do
  match commentFindById db id with
  | none => throw (createError "Comentario no encontrado" 404)
  | some comment =>
    if !comment.isActive then
      throw (createError "Comentario no disponible" 404)
    return comment

/-! ## Query surface: sorting, pagination, list endpoints

The store's sort is embedded as a stable insertion sort over a boolean
comparison; the claims about the list endpoints concern membership and
length only, never a particular order. -/

def insertSorted (le : α → α → Bool) (a : α) : List α → List α
  | [] => [a]
  | b :: t => if le a b then a :: b :: t else b :: insertSorted le a t

def sortList (le : α → α → Bool) : List α → List α
  | [] => []
  | a :: t => insertSorted le a (sortList le t)

/-- Case-insensitive substring test, modelling
`{ $regex: term, $options: 'i' }` for a literal term. -/
def containsIgnoreCase (s q : String) : Bool :=
  listContainsSub (jsToLower s).data (jsToLower q).data

/-- The pagination envelope the controllers compute:
`totalPages = Math.ceil(total / limit)`, `hasNextPage = page < totalPages`,
`hasPrevPage = page > 1`.  In the responses the total field is serialized
as `totalPosts` / `totalUsers` / `totalComments` / `totalLikes`. -/
structure Pagination where
  currentPage : Nat
  totalPages : Nat
  totalItems : Nat
  hasNextPage : Bool
  hasPrevPage : Bool
  limit : Nat
deriving Repr, DecidableEq

def paginationEnvelope (page limit total : Nat) : Pagination :=
  let totalPages := (total + limit - 1) / limit
  { currentPage := page, totalPages := totalPages, totalItems := total,
    hasNextPage := page < totalPages, hasPrevPage := 1 < page, limit := limit }

/-- Sort key for posts; the time fields are represented by `createdAt`. -/
def postSortKey (sortBy : String) (p : PostDoc) : Int :=
  if sortBy == "likesCount" then p.likesCount
  else if sortBy == "commentsCount" then p.commentsCount
  else (p.createdAt : Int)

def postSortLe (sortBy sortOrder : String) (a b : PostDoc) : Bool :=
  if sortOrder == "desc" then postSortKey sortBy b ≤ postSortKey sortBy a
  else postSortKey sortBy a ≤ postSortKey sortBy b

/-- `GET /api/posts` (`getAllPosts` controller): only active posts, an
optional tag filter (a single tag or `$in` a list, both membership in the
post's tag array), sort, `skip = (page-1)*limit`, `limit`, and the
pagination envelope computed from `countDocuments` of the same filter. -/
def controllerGetAllPosts (db : DB) (page limit : Nat)
    (sortBy sortOrder : String) (tags : Option (List String)) :
    List PostDoc × Pagination :=
  let skip := (page - 1) * limit
  let filter := fun (p : PostDoc) =>
    p.isActive &&
      (match tags with
       | none => true
       | some ts => p.tags.any (fun t => ts.contains t))
  let filtered := db.posts.filter filter
  let sorted := sortList (postSortLe sortBy sortOrder) filtered
  let posts := (sorted.drop skip).take limit
  (posts, paginationEnvelope page limit filtered.length)

/-- `GET /api/posts/search?q=` (`searchPosts` controller): active posts
whose content or one of whose tags contains the term case-insensitively. -/
def controllerSearchPosts (db : DB) (q : String) (page limit : Nat) :
    Except ApiError (List PostDoc × Pagination) := do
  if (jsTrim q).length == 0 then
    throw (createError "Debe proporcionar un término de búsqueda" 400)
  let skip := (page - 1) * limit
  let filter := fun (p : PostDoc) =>
    p.isActive && (containsIgnoreCase p.content q
                    || p.tags.any (fun t => containsIgnoreCase t q))
  let filtered := db.posts.filter filter
  let sorted := sortList (postSortLe "createdAt" "desc") filtered
  return ((sorted.drop skip).take limit, paginationEnvelope page limit filtered.length)

/-- `GET /api/comments/post/:postId` (`getCommentsByPost` controller via
`Comment.getCommentsByPost`): the post must exist and be active; only
active top-level comments of the post are listed. -/
def controllerGetCommentsByPost (db : DB) (postId : Nat) (page limit : Nat) :
    Except ApiError (List CommentDoc × Pagination) := do
  match postFindById db postId with
  | none => throw (createError "Post no encontrado" 404)
  | some post =>
    if !post.isActive then throw (createError "Post no encontrado" 404)
  let skip := (page - 1) * limit
  let filter := fun (c : CommentDoc) =>
    c.postId == postId && c.isActive && c.parentCommentId == none
  let filtered := db.comments.filter filter
  let sorted := sortList (fun a b => b.createdAt ≤ a.createdAt) filtered
  return ((sorted.drop skip).take limit, paginationEnvelope page limit filtered.length)

/-- `select('-password')` on a user query. -/
def selectNoPassword (u : UserDoc) : UserDoc := { u with password := none }

def userSortKey (sortBy : String) (u : UserDoc) : Int := (u.createdAt : Int)

/-- `GET /api/users` (`getAllUsers` controller): active users, optional
case-insensitive search over username, first/last name and email,
`select('-password')`, sort, skip/limit and the envelope. -/
def controllerGetAllUsers (db : DB) (page limit : Nat)
    (sortBy sortOrder : String) (search : Option String) :
    List UserDoc × Pagination :=
  let skip := (page - 1) * limit
  let filter := fun (u : UserDoc) =>
    u.isActive &&
      (match search with
       | none => true
       | some s =>
         containsIgnoreCase u.username s || containsIgnoreCase u.firstName s
           || containsIgnoreCase u.lastName s || containsIgnoreCase u.email s)
  let filtered := db.users.filter filter
  let le : UserDoc → UserDoc → Bool := fun a b =>
    if sortOrder == "desc" then userSortKey sortBy b ≤ userSortKey sortBy a
    else userSortKey sortBy a ≤ userSortKey sortBy b
  let sorted := sortList le filtered
  let users := ((sorted.drop skip).take limit).map selectNoPassword
  (users, paginationEnvelope page limit filtered.length)

/-! ## Authentication (`src/middleware/auth.js`, `src/middleware/errorHandler.js`,
`loginUser` in `src/controllers/userController.js`)

The `jsonwebtoken` and `bcryptjs` libraries are external to the repository
and are modelled by executable stand-ins: a token records the payload, the
secret it was signed with and its expiry instant, and the bcrypt hash is an
injective tagging of the input. -/

/-- Modelled from the library jsonwebtoken: the payload the repository
signs (`{ id }`, plus `type: 'refresh'` on refresh tokens). -/
structure JwtPayload where
  id : Nat
  tokenType : Option String := none
deriving Repr, DecidableEq

/-- Modelled from the library jsonwebtoken: a signed token. -/
structure Token where
  payload : JwtPayload
  secret : String
  expiresAt : Nat
deriving Repr, DecidableEq

inductive JwtError where
  | invalidSignature
  | expired
deriving Repr, DecidableEq

/-- Modelled from the library jsonwebtoken: `jwt.verify(token, secret)`
rejects a wrong signature with `JsonWebTokenError` and an expired token
with `TokenExpiredError`, otherwise yields the payload. -/
def jwtVerify (tok : Token) (secret : String) (now : Nat) :
    Except JwtError JwtPayload :=
  if tok.secret ≠ secret then Except.error JwtError.invalidSignature
  else if tok.expiresAt ≤ now then Except.error JwtError.expired
  else Except.ok tok.payload

/-- The error object the jsonwebtoken library raises, as seen by the
`errorHandler` branches keyed on `err.name`. -/
def jwtErrorToApiError : JwtError → ApiError
  | JwtError.invalidSignature =>
    { name := "JsonWebTokenError", message := "invalid signature" }
  | JwtError.expired => { name := "TokenExpiredError", message := "jwt expired" }

/-- `generateTokens(userId)` from `src/middleware/auth.js`: a short-lived
access token signed with `JWT_SECRET` and a longer refresh token carrying
`type: 'refresh'` signed with `JWT_REFRESH_SECRET`. -/
structure TokenPair where
  accessToken : Token
  refreshToken : Token
deriving Repr, DecidableEq

def generateTokens (userId : Nat) (secret refreshSecret : String)
    (now expire refreshExpire : Nat) : TokenPair :=
  { accessToken := { payload := { id := userId }, secret := secret,
                     expiresAt := now + expire },
    refreshToken := { payload := { id := userId, tokenType := some "refresh" },
                      secret := refreshSecret, expiresAt := now + refreshExpire } }

/-- The `authenticate` middleware.  The whole try block — token
verification, user lookup, the active check — sits inside a catch that
replaces any failure with the single generic
`createError('Token de autorización inválido', 401)`; a missing or
non-Bearer header yields the 'Acceso denegado' 401 instead. -/
def authenticate (db : DB) (authHeader : Option Token) (secret : String)
    (now : Nat) : Except ApiError UserDoc :=
  match authHeader with
  | none =>
    Except.error
      (createError "Acceso denegado. No se proporcionó token de autorización" 401)
  | some tok =>
    let tryBlock : Except ApiError UserDoc :=
      match jwtVerify tok secret now with
      | Except.error e => Except.error (jwtErrorToApiError e)
      | Except.ok decoded =>
        match userFindById db decoded.id with
        | none => Except.error (createError "Usuario no encontrado" 401)
        | some currentUser =>
          if !currentUser.isActive then
            Except.error (createError "Cuenta de usuario inactiva" 401)
          else Except.ok (selectNoPassword currentUser)
    match tryBlock with
    | Except.ok u => Except.ok u
    | Except.error _ =>
      Except.error (createError "Token de autorización inválido" 401)

/-- The JSON error body the central `errorHandler` sends:
`{ success: false, error: message, statusCode }`. -/
structure ErrorResponse where
  statusCode : Nat
  error : String
deriving Repr, DecidableEq

/-- The central `errorHandler` middleware: maps known error shapes
(Mongoose validation/cast errors, duplicate key code 11000, the two JWT
error names) to the taxonomy, and otherwise uses the attached `statusCode`
or 500. -/
def errorHandler (err : ApiError) : ErrorResponse :=
  if err.name == "ValidationError" then
    { statusCode := 400, error := "Error de validación: " ++ err.message }
  else if err.name == "CastError" then
    { statusCode := 400, error := "ID de recurso no válido" }
  else if err.code == some 11000 then
    { statusCode := 400, error := "Ya existe un registro con ese valor" }
  else if err.name == "JsonWebTokenError" then
    { statusCode := 401, error := "Token de autorización inválido" }
  else if err.name == "TokenExpiredError" then
    { statusCode := 401, error := "Token de autorización expirado" }
  else
    { statusCode := err.statusCode.getD 500, error := err.message }

/-- A request through `authenticate` as the client sees it: the middleware
outcome pushed through the error handler. -/
def authResponse (db : DB) (authHeader : Option Token) (secret : String)
    (now : Nat) : Except ErrorResponse UserDoc :=
  (authenticate db authHeader secret now).mapError errorHandler

/-- Modelled from the library bcryptjs: an injective stand-in for the
salted hash written by the user pre-save hook. -/
def bcryptHash (pw : String) : String := "$2b$12$" ++ pw

/-- Modelled from the library bcryptjs: `bcrypt.compare` succeeds exactly
when the stored string is the hash of the candidate. -/
def bcryptCompare (candidate stored : String) : Bool :=
  bcryptHash candidate == stored

/-- `userSchema.methods.comparePassword`: `bcrypt.compare(candidate,
this.password)`.  When the account stores no hash (an OAuth-only user) the
bcryptjs library rejects with an `Illegal arguments` error — a plain
`Error` without a `statusCode`, which the central error handler therefore
reports as a 500; otherwise it resolves to whether the stored string is
the hash of the candidate. -/
def userComparePassword (u : UserDoc) (candidate : String) : Except ApiError Bool :=
  match u.password with
  | some stored => Except.ok (bcryptCompare candidate stored)
  | none =>
    Except.error { name := "Error",
                   message := "Illegal arguments: string, undefined" }

/-- The `User.findOne({ $or: [{ email }, { username }] })` lookup of
`loginUser`. -/
def findUserByEmailOrUsername (db : DB) (emailOrUsername : String) :
    Option UserDoc :=
  db.users.find? (fun u => u.email == emailOrUsername || u.username == emailOrUsername)

/-- `userSchema.methods.updateLastLogin` persisted into the store. -/
def userUpdateLastLogin (db : DB) (u : UserDoc) (now : Nat) : DB × UserDoc :=
  let u1 := { u with lastLogin := some now }
  ({ db with users := db.users.map (fun x => if x.id == u1.id then u1 else x) }, u1)

/-- The user object shaped by the `loginUser` response (an explicit field
projection; no password field exists on it). -/
structure LoginUserView where
  id : Nat
  username : String
  email : String
  firstName : String
  lastName : String
  profilePicture : Option String
  bio : String
  lastLogin : Option Nat
deriving Repr, DecidableEq

def loginUserView (u : UserDoc) : LoginUserView :=
  { id := u.id, username := u.username, email := u.email,
    firstName := u.firstName, lastName := u.lastName,
    profilePicture := u.profilePicture, bio := u.bio, lastLogin := u.lastLogin }

structure LoginData where
  user : LoginUserView
  accessToken : Token
  refreshToken : Token
deriving Repr, DecidableEq

/-- `POST /api/users/login` (`loginUser` controller): look up by email or
username; 401 when no user matches, when the account is inactive or when
the password does not match; on success update `lastLogin` and return the
shaped user with both tokens. -/
def controllerLoginUser (db : DB) (emailOrUsername password : String)
    (secret refreshSecret : String) (now expire refreshExpire : Nat) :
    Except ApiError (DB × LoginData) := do
  match findUserByEmailOrUsername db emailOrUsername with
  | none => throw (createError "Credenciales inválidas" 401)
  | some user =>
    if !user.isActive then
      throw (createError "Cuenta de usuario inactiva" 401)
    let isPasswordValid ← userComparePassword user password
    if !isPasswordValid then
      throw (createError "Credenciales inválidas" 401)
    let (db1, user1) := userUpdateLastLogin db user now
    let pair := generateTokens user.id secret refreshSecret now expire refreshExpire
    return (db1, { user := loginUserView user1,
                   accessToken := pair.accessToken,
                   refreshToken := pair.refreshToken })

/-! ## User serialization (`userSchema` `toJSON` transform, `populate`
projections) -/

def optStr : Option String → String
  | none => "null"
  | some s => s

def optNat : Option Nat → String
  | none => "null"
  | some n => toString n

/-- The JSON object a User document serializes to before the `toJSON`
transform runs: every schema field, the stored password hash included. -/
def userToJSONRaw (u : UserDoc) : List (String × String) :=
  [("_id", toString u.id),
   ("username", u.username),
   ("email", u.email)] ++
  (match u.password with
   | some p => [("password", p)]
   | none => []) ++
  [("firstName", u.firstName),
   ("lastName", u.lastName),
   ("profilePicture", optStr u.profilePicture),
   ("bio", u.bio),
   ("isActive", toString u.isActive),
   ("oauthProvider", optStr u.oauthProvider),
   ("oauthId", optStr u.oauthId),
   ("lastLogin", optNat u.lastLogin),
   ("createdAt", toString u.createdAt)]

/-- The `toJSON` transform of `userSchema`: `delete ret.password`. -/
def userToJSON (u : UserDoc) : List (String × String) :=
  (userToJSONRaw u).filter (fun kv => kv.1 ≠ "password")

/-- The author projection used by
`populate('author', 'username firstName lastName profilePicture')`. -/
structure AuthorView where
  username : String
  firstName : String
  lastName : String
  profilePicture : Option String
deriving Repr, DecidableEq

def authorView (u : UserDoc) : AuthorView :=
  { username := u.username, firstName := u.firstName,
    lastName := u.lastName, profilePicture := u.profilePicture }

/-! ## Scenario stores used by the concrete claims -/

/-- A store holding exactly one active post with a given owner, id and
initial `likesCount`, and no likes. -/
def togglePostDB (owner pid : Nat) (c0 : Int) : DB :=
  { posts := [{ id := pid, userId := owner, content := "hola",
                likesCount := c0 }] }

/-- A store holding exactly one active target document of the given kind
(a post for targetType `"Post"`, a comment for `"Comment"`) with a given
owner and id, counter 0, and no likes. -/
def toggleTargetDB (targetType : String) (owner tid : Nat) : DB :=
  if targetType == "Comment" then
    { comments := [{ id := tid, postId := 0, userId := owner, content := "hola" }] }
  else
    { posts := [{ id := tid, userId := owner, content := "hola" }] }

/-- Iterated sequential `ToggleLike` requests by the same authenticated
user on the same (targetType, targetId), starting from no like record and
counter 0.  A request that failed would leave the store unchanged. -/
def toggleIter (targetType : String) (owner liker tid : Nat) : Nat → DB
  | 0 => toggleTargetDB targetType owner tid
  | n + 1 =>
    match controllerToggleLike (toggleIter targetType owner liker tid n)
        (some liker) targetType tid with
    | Except.ok (db1, _) => db1
    | Except.error _ => toggleIter targetType owner liker tid n

/-- The post's denormalized counter as stored (0 when the post is absent). -/
def likesCountOf (db : DB) (pid : Nat) : Int :=
  ((postFindById db pid).map PostDoc.likesCount).getD 0

/-- The comment's denormalized counter as stored (0 when absent). -/
def commentLikesCountOf (db : DB) (cid : Nat) : Int :=
  ((commentFindById db cid).map CommentDoc.likesCount).getD 0

/-- The toggled target's denormalized counter, per target kind. -/
def targetLikesCountOf (db : DB) (targetType : String) (tid : Nat) : Int :=
  if targetType == "Comment" then commentLikesCountOf db tid
  else likesCountOf db tid

/-- Whether the toggling user's like record on the target is active. -/
def likeStateActive (db : DB) (liker : Nat) (targetType : String) (tid : Nat) : Bool :=
  ((likeFindOne db liker targetType tid).map LikeDoc.isActive).getD false

/-- Number of toggles among the first `n` that left the like active. -/
def toggledActiveCount (targetType : String) (owner liker tid n : Nat) : Nat :=
  (List.range n).countP (fun i =>
    likeStateActive (toggleIter targetType owner liker tid (i + 1)) liker targetType tid)

/-- Number of toggles among the first `n` that left the like inactive. -/
def toggledInactiveCount (targetType : String) (owner liker tid n : Nat) : Nat :=
  (List.range n).countP (fun i =>
    !likeStateActive (toggleIter targetType owner liker tid (i + 1)) liker targetType tid)

/-- Two sequential toggles by the same user on the same post. -/
def doubleToggle (db : DB) (u pid : Nat) :
    Except ApiError (DB × ToggleResult × ToggleResult) := do
  let (d1, r1) ← controllerToggleLike db (some u) "Post" pid
  let (d2, r2) ← controllerToggleLike d1 (some u) "Post" pid
  return (d2, r1, r2)

/-- The store after the request sequence: toggle like, toggle like again,
then `DELETE /api/likes/0`, all by user 7 on post 1 whose counter starts at
0.  Any failing step would leave its input store unchanged. -/
def counterUnderflowRun : DB :=
  match controllerToggleLike (togglePostDB 9 1 0) (some 7) "Post" 1 with
  | Except.error _ => togglePostDB 9 1 0
  | Except.ok (d1, _) =>
    match controllerToggleLike d1 (some 7) "Post" 1 with
    | Except.error _ => d1
    | Except.ok (d2, _) =>
      match controllerDeleteLike d2 (some 7) 0 with
      | Except.error _ => d2
      | Except.ok d3 => d3

/-- The content-type scenario: create a post with content `¡Hola mundo!`
and no image (as user 1 on an empty store). -/
def contentTypeCreateResult : Except ApiError (DB × PostDoc) :=
  controllerCreatePost {} (some 1) "¡Hola mundo!" none []

def contentTypeDB1 : DB :=
  match contentTypeCreateResult with
  | Except.ok (d, _) => d
  | Except.error _ => {}

/-- Second step of the scenario: the owner adds an image URL. -/
def contentTypeUpdateResult : Except ApiError (DB × PostDoc) :=
  controllerUpdatePost contentTypeDB1 (some 1) 0
    { imageUrl := some (some "https://example.com/image.jpg") }

def contentTypeDB2 : DB :=
  match contentTypeUpdateResult with
  | Except.ok (d, _) => d
  | Except.error _ => contentTypeDB1

/-- Third step of the scenario: the owner tries to remove the content,
keeping only the image. -/
def contentTypeRemoveResult : Except ApiError (DB × PostDoc) :=
  controllerUpdatePost contentTypeDB2 (some 1) 0 { content := some "" }

/-! ## Helper lemmas about the embedded sort and pagination -/

theorem mem_insertSorted {α : Type} (le : α → α → Bool) (a x : α) :
    ∀ l : List α, x ∈ insertSorted le a l ↔ x = a ∨ x ∈ l := by
  intro l
  induction l with
  | nil => simp [insertSorted]
  | cons b t ih =>
    by_cases h : le a b = true
    · simp [insertSorted, h]
    · simp only [insertSorted, h, Bool.false_eq_true, if_false, List.mem_cons, ih]
      tauto

theorem mem_sortList {α : Type} (le : α → α → Bool) (x : α) :
    ∀ l : List α, x ∈ sortList le l ↔ x ∈ l := by
  intro l
  induction l with
  | nil => simp [sortList]
  | cons b t ih => simp [sortList, mem_insertSorted, ih]

theorem length_insertSorted {α : Type} (le : α → α → Bool) (a : α) :
    ∀ l : List α, (insertSorted le a l).length = l.length + 1 := by
  intro l
  induction l with
  | nil => simp [insertSorted]
  | cons b t ih =>
    by_cases h : le a b = true
    · simp [insertSorted, h]
    · simp [insertSorted, h, ih]

theorem length_sortList {α : Type} (le : α → α → Bool) :
    ∀ l : List α, (sortList le l).length = l.length := by
  intro l
  induction l with
  | nil => rfl
  | cons b t ih => simp [sortList, length_insertSorted, ih]

/-! Reduction facts for the `Except` monad operations the controllers'
do-notation desugars to. -/

theorem exceptThrow {ε α : Type} (e : ε) : (throw e : Except ε α) = Except.error e := rfl

theorem exceptPure {ε α : Type} (a : α) : (pure a : Except ε α) = Except.ok a := rfl

theorem exceptBindError {ε α β : Type} (e : ε) (f : α → Except ε β) :
    (Except.error e >>= f) = Except.error e := rfl

theorem exceptBindOk {ε α β : Type} (a : α) (f : α → Except ε β) :
    (Except.ok a >>= f) = f a := rfl

theorem exceptMapError {ε α β : Type} (e : ε) (f : α → β) :
    (f <$> (Except.error e : Except ε α)) = Except.error e := rfl

theorem exceptMapOk {ε α β : Type} (a : α) (f : α → β) :
    (f <$> (Except.ok a : Except ε α)) = Except.ok (f a) := rfl

/-- The page-arithmetic fact behind `hasNextPage`: for a positive limit,
`page < Math.ceil(total / limit)` is equivalent to `page * limit < total`. -/
theorem lt_ceilDiv_iff (page limit total : Nat) (hl : 1 ≤ limit) :
    page < (total + limit - 1) / limit ↔ page * limit < total := by
  rw [Nat.lt_iff_add_one_le, Nat.le_div_iff_mul_le (by omega : 0 < limit),
    Nat.succ_mul]
  generalize page * limit = a
  omega

/-! ## C10 — password never serialized -/

/-- C10: two users differing only in their stored password hash serialize
identically through the `toJSON` transform, the login response shaping, the
populated author projection and `select('-password')`; and the serialized
JSON has no `password` key at all. -/
theorem C10_password_never_serialized (u : UserDoc) (p1 p2 : Option String) :
    userToJSON { u with password := p1 } = userToJSON { u with password := p2 }
    ∧ "password" ∉ (userToJSON u).map Prod.fst
    ∧ loginUserView { u with password := p1 } = loginUserView { u with password := p2 }
    ∧ authorView { u with password := p1 } = authorView { u with password := p2 }
    ∧ selectNoPassword { u with password := p1 }
        = selectNoPassword { u with password := p2 }
    ∧ (controllerGetAllUsers { users := [{ u with password := p1 }] } 1 10
        "createdAt" "desc" none).1.all (fun v => v.password == none) = true := by
  refine ⟨?_, ?_, rfl, rfl, rfl, ?_⟩
  · cases p1 <;> cases p2 <;> rfl
  · cases hp : u.password <;>
      simp [userToJSON, userToJSONRaw, hp]
  · by_cases h : u.isActive = true <;>
      simp [controllerGetAllUsers, selectNoPassword, h, sortList, insertSorted]

/-! ## C4 — invalid vs expired token responses -/

/-- C4 counterexample: a token signed with the wrong secret and a token
expired at the time of the request produce the very same 401 response
through the `authenticate` middleware — in particular the expired token is
not answered with the distinct `expirado` message — because the
middleware's catch-all replaces the library error before the error
handler's distinct branches can see it. -/
theorem C4_counterexample :
    authResponse {} (some { payload := { id := 1 }, secret := "wrong", expiresAt := 200 }) "s" 100
      = Except.error { statusCode := 401, error := "Token de autorización inválido" }
    ∧ authResponse {} (some { payload := { id := 1 }, secret := "s", expiresAt := 100 }) "s" 100
      = Except.error { statusCode := 401, error := "Token de autorización inválido" }
    ∧ authResponse {} (some { payload := { id := 1 }, secret := "s", expiresAt := 100 }) "s" 100
      ≠ Except.error { statusCode := 401, error := "Token de autorización expirado" } := by
  refine ⟨rfl, rfl, ?_⟩
  intro h
  rw [show authResponse {} (some { payload := { id := 1 }, secret := "s", expiresAt := 100 }) "s" 100
      = Except.error { statusCode := 401, error := "Token de autorización inválido" } from rfl] at h
  injection h with h2
  exact absurd (congrArg ErrorResponse.error h2) (by decide)

/-- C4 (amended): a bearer token that is signed with the wrong secret or is
expired is rejected with HTTP 401, but the two causes are reported
identically (the generic `Token de autorización inválido` body), not
distinctly. -/
theorem C4_amended_single_401 (db : DB) (tok : Token) (secret : String) (now : Nat)
    (h : tok.secret ≠ secret ∨ tok.expiresAt ≤ now) :
    authResponse db (some tok) secret now
      = Except.error { statusCode := 401, error := "Token de autorización inválido" } := by
  rcases h with h | h
  · simp [authResponse, authenticate, jwtVerify, h, errorHandler, createError,
      Except.mapError]
  · by_cases hs : tok.secret = secret
    · simp [authResponse, authenticate, jwtVerify, hs, h, errorHandler,
        createError, Except.mapError]
    · simp [authResponse, authenticate, jwtVerify, hs, errorHandler,
        createError, Except.mapError]

/-- C4 witness: the amended theorem applied to a concrete expired token. -/
theorem C4_amended_single_401_witness :
    authResponse {} (some { payload := { id := 1 }, secret := "s", expiresAt := 100 }) "s" 100
      = Except.error { statusCode := 401, error := "Token de autorización inválido" } :=
  C4_amended_single_401 {} _ "s" 100 (Or.inr (by decide))

/-! ## C5 — ownership enforcement on update and soft-delete -/

/-- C5 counterexample: an unauthenticated soft-delete of a comment owned by
user 3 does not fail with a 403 — it succeeds and deactivates the comment,
because `deleteComment` only runs its ownership check when `req.user`
exists. -/
theorem C5_counterexample :
    controllerDeleteComment
        { comments := [{ id := 0, postId := 1, userId := 3, content := "hola" }] } none 0
      = Except.ok
          { comments := [{ id := 0, postId := 1, userId := 3, content := "hola",
                           isActive := false }] } := by rfl

/-- C5 (amended): ownership is enforced only against an attached
authenticated user.  An authenticated non-owner receives a 403 from all
four operations (and the store is unchanged, since only a successful
result carries a new store); an unauthenticated Post update or soft-delete
fails with a raised `TypeError` (an internal error, not a 403); an
unauthenticated Comment update or soft-delete bypasses the ownership check
entirely and succeeds (the update subject only to content validation). -/
theorem C5_amended_ownership (db : DB) (u id : Nat) (p : PostDoc) (c : CommentDoc)
    (f : PostUpdateFields) (content : String) :
    (postFindById db id = some p → p.userId ≠ u →
      controllerUpdatePost db (some u) id f
          = Except.error (createError "No tienes permisos para actualizar este post" 403)
        ∧ controllerDeletePost db (some u) id
          = Except.error (createError "No tienes permisos para eliminar este post" 403))
    ∧ (commentFindById db id = some c → c.userId ≠ u →
      controllerUpdateComment db (some u) id content
          = Except.error (createError "No tienes permisos para actualizar este comentario" 403)
        ∧ controllerDeleteComment db (some u) id
          = Except.error (createError "No tienes permisos para eliminar este comentario" 403))
    ∧ (postFindById db id = some p →
      controllerUpdatePost db none id f
          = Except.error { name := "TypeError", message := "Cannot read properties of undefined" }
        ∧ controllerDeletePost db none id
          = Except.error { name := "TypeError", message := "Cannot read properties of undefined" })
    ∧ (commentFindById db id = some c → validateCommentDoc c = true →
      (controllerDeleteComment db none id).isOk = true)
    ∧ (commentFindById db id = some c →
      validateCommentDoc { c with content := jsTrim content, isEdited := true } = true →
      (controllerUpdateComment db none id content).isOk = true) := by
  refine ⟨?_, ?_, ?_, ?_, ?_⟩
  · intro h hne
    constructor <;>
      simp [controllerUpdatePost, controllerDeletePost, h, hne, exceptThrow,
        exceptBindError, exceptMapError]
  · intro h hne
    constructor <;>
      simp [controllerUpdateComment, controllerDeleteComment, h, hne,
        exceptThrow, exceptBindError, exceptMapError]
  · intro h
    constructor <;>
      simp [controllerUpdatePost, controllerDeletePost, h, exceptThrow,
        exceptBindError, exceptMapError]
  · intro h hv
    have hv2 : validateCommentDoc { c with isActive := false } = true := hv
    simp [controllerDeleteComment, h, commentSaveExisting, hv2, Except.isOk,
      Except.toBool, exceptThrow, exceptPure, exceptBindOk, exceptBindError,
      exceptMapOk, exceptMapError]
  · intro h hv
    simp [controllerUpdateComment, h, commentSaveExisting, hv, Except.isOk,
      Except.toBool, exceptThrow, exceptPure, exceptBindOk, exceptBindError,
      exceptMapOk, exceptMapError]

/-- C5 witness: a concrete authenticated non-owner gets the 403 on a post
update, and a concrete unauthenticated comment soft-delete goes through. -/
theorem C5_amended_ownership_witness :
    controllerUpdatePost
        { posts := [{ id := 0, userId := 1, content := "hola" }],
          comments := [{ id := 0, postId := 0, userId := 1, content := "hola" }] }
        (some 2) 0 { content := some "x" }
      = Except.error (createError "No tienes permisos para actualizar este post" 403)
    ∧ (controllerDeleteComment
        { posts := [{ id := 0, userId := 1, content := "hola" }],
          comments := [{ id := 0, postId := 0, userId := 1, content := "hola" }] }
        none 0).isOk = true
    ∧ (controllerUpdateComment
        { posts := [{ id := 0, userId := 1, content := "hola" }],
          comments := [{ id := 0, postId := 0, userId := 1, content := "hola" }] }
        none 0 "y").isOk = true :=
  ⟨((C5_amended_ownership
      { posts := [{ id := 0, userId := 1, content := "hola" }],
        comments := [{ id := 0, postId := 0, userId := 1, content := "hola" }] }
      2 0 { id := 0, userId := 1, content := "hola" }
      { id := 0, postId := 0, userId := 1, content := "hola" }
      { content := some "x" } "y").1 (by rfl) (by decide)).1,
   (C5_amended_ownership
      { posts := [{ id := 0, userId := 1, content := "hola" }],
        comments := [{ id := 0, postId := 0, userId := 1, content := "hola" }] }
      2 0 { id := 0, userId := 1, content := "hola" }
      { id := 0, postId := 0, userId := 1, content := "hola" }
      { content := some "x" } "y").2.2.2.1 (by rfl) (by decide),
   (C5_amended_ownership
      { posts := [{ id := 0, userId := 1, content := "hola" }],
        comments := [{ id := 0, postId := 0, userId := 1, content := "hola" }] }
      2 0 { id := 0, userId := 1, content := "hola" }
      { id := 0, postId := 0, userId := 1, content := "hola" }
      { content := some "x" } "y").2.2.2.2 (by rfl) (by decide)⟩

/-! ## C7 — soft-deleted content reachability -/

/-- C7 counterexample: a direct fetch of a soft-deleted post fails with a
404 for every caller — the route is public and consults no caller identity
at all, so in particular the owner (user 5) does not get the post's data
back. -/
theorem C7_counterexample :
    controllerGetPostById
        { posts := [{ id := 1, userId := 5, content := "hola", isActive := false }] } 1
      = Except.error (createError "Post no disponible" 404) := by rfl

/-- C7 (amended): a soft-deleted Post or Comment is excluded from the list
and search endpoints, and a direct fetch by id fails with a 404 for every
caller, the owner included (the fetch routes take no caller identity). -/
theorem C7_amended_soft_delete (db : DB) (id : Nat) (p : PostDoc) (c : CommentDoc)
    (page limit postId : Nat) (sb so q : String) (tags : Option (List String)) :
    (postFindById db id = some p → p.isActive = false →
      controllerGetPostById db id = Except.error (createError "Post no disponible" 404))
    ∧ (commentFindById db id = some c → c.isActive = false →
      controllerGetCommentById db id
        = Except.error (createError "Comentario no disponible" 404))
    ∧ (controllerGetAllPosts db page limit sb so tags).1.all (fun x => x.isActive) = true
    ∧ (match controllerSearchPosts db q page limit with
       | Except.ok (l, _) => l.all (fun x => x.isActive)
       | Except.error _ => true) = true
    ∧ (match controllerGetCommentsByPost db postId page limit with
       | Except.ok (l, _) => l.all (fun x => x.isActive)
       | Except.error _ => true) = true := by
  refine ⟨?_, ?_, ?_, ?_, ?_⟩
  · intro h hi
    simp [controllerGetPostById, h, hi, exceptThrow, exceptMapError]
  · intro h hi
    simp [controllerGetCommentById, h, hi, exceptThrow, exceptMapError]
  · simp only [controllerGetAllPosts, List.all_eq_true]
    intro x hx
    have hx2 := List.mem_of_mem_take hx
    have hx3 := List.mem_of_mem_drop hx2
    have hx4 := (mem_sortList _ x _).mp hx3
    have hx5 := List.of_mem_filter hx4
    simp only [Bool.and_eq_true] at hx5
    exact hx5.1
  · by_cases hq : (jsTrim q).length == 0
    · simp [controllerSearchPosts, hq, exceptThrow, exceptPure, exceptBindOk,
        exceptBindError, exceptMapOk, exceptMapError]
    · simp only [controllerSearchPosts, hq, Bool.false_eq_true, if_false,
        exceptThrow, exceptPure, exceptBindOk, exceptBindError, exceptMapOk,
        exceptMapError, List.all_eq_true]
      intro x hx
      have hx2 := List.mem_of_mem_take hx
      have hx3 := List.mem_of_mem_drop hx2
      have hx4 := (mem_sortList _ x _).mp hx3
      have hx5 := List.of_mem_filter hx4
      simp only [Bool.and_eq_true] at hx5
      exact hx5.1
  · cases hfind : postFindById db postId with
    | none =>
      simp [controllerGetCommentsByPost, hfind, exceptThrow, exceptPure,
        exceptBindOk, exceptBindError, exceptMapOk, exceptMapError]
    | some post =>
      by_cases hact : post.isActive
      · simp only [controllerGetCommentsByPost, hfind, hact, Bool.not_true,
          Bool.false_eq_true, if_false, exceptThrow, exceptPure, exceptBindOk,
          exceptBindError, exceptMapOk, exceptMapError, List.all_eq_true]
        intro x hx
        have hx2 := List.mem_of_mem_take hx
        have hx3 := List.mem_of_mem_drop hx2
        have hx4 := (mem_sortList _ x _).mp hx3
        have hx5 := List.of_mem_filter hx4
        simp only [Bool.and_eq_true] at hx5
        exact hx5.1.2
      · simp [controllerGetCommentsByPost, hfind, hact, exceptThrow,
          exceptPure, exceptBindOk, exceptBindError, exceptMapOk,
          exceptMapError]

/-- C7 witness: the concrete soft-deleted post of the counterexample store
is invisible both to the direct fetch and to the list endpoint. -/
theorem C7_amended_soft_delete_witness :
    controllerGetPostById
        { posts := [{ id := 1, userId := 5, content := "hola", isActive := false }] } 1
      = Except.error (createError "Post no disponible" 404)
    ∧ (controllerGetAllPosts
        { posts := [{ id := 1, userId := 5, content := "hola", isActive := false }] }
        1 10 "createdAt" "desc" none).1.all (fun x => x.isActive) = true :=
  ⟨(C7_amended_soft_delete _ 1 { id := 1, userId := 5, content := "hola", isActive := false }
      { id := 0, postId := 0, userId := 0, content := "x" } 1 10 0 "createdAt" "desc" "q"
      none).1 rfl rfl,
   (C7_amended_soft_delete _ 1 { id := 1, userId := 5, content := "hola", isActive := false }
      { id := 0, postId := 0, userId := 0, content := "x" } 1 10 0 "createdAt" "desc" "q"
      none).2.2.1⟩

/-! ## C8 — pagination envelope -/

/-- C8: for any page `P ≥ 1` and limit `L ≥ 1`, the posts and users list
endpoints return at most `L` items, and `hasNextPage` is true exactly when
`P × L` is less than the total matching-item count (equivalently
`P < Math.ceil(T / L)`, as the controllers compute it). -/
theorem C8_pagination (db : DB) (page limit : Nat) (sb so : String)
    (tags : Option (List String)) (search : Option String)
    (hp : 1 ≤ page) (hl : 1 ≤ limit) :
    (controllerGetAllPosts db page limit sb so tags).1.length ≤ limit
    ∧ ((controllerGetAllPosts db page limit sb so tags).2.hasNextPage = true
        ↔ page * limit < (controllerGetAllPosts db page limit sb so tags).2.totalItems)
    ∧ (controllerGetAllUsers db page limit sb so search).1.length ≤ limit
    ∧ ((controllerGetAllUsers db page limit sb so search).2.hasNextPage = true
        ↔ page * limit < (controllerGetAllUsers db page limit sb so search).2.totalItems) := by
  refine ⟨?_, ?_, ?_, ?_⟩
  · simp only [controllerGetAllPosts]
    rw [List.length_take]
    exact Nat.min_le_left _ _
  · simp only [controllerGetAllPosts, paginationEnvelope, decide_eq_true_eq]
    exact lt_ceilDiv_iff page limit _ hl
  · simp only [controllerGetAllUsers, List.length_map]
    rw [List.length_take]
    exact Nat.min_le_left _ _
  · simp only [controllerGetAllUsers, paginationEnvelope, decide_eq_true_eq]
    exact lt_ceilDiv_iff page limit _ hl

/-- C8 witness: page 1 with limit 2 over a three-post store returns two
posts and reports a next page. -/
theorem C8_pagination_witness :
    1 ≤ 1 ∧ 1 ≤ 2
    ∧ ((controllerGetAllPosts
          { posts := [{ id := 0, userId := 1, content := "a" },
                      { id := 1, userId := 1, content := "b" },
                      { id := 2, userId := 1, content := "c" }] }
          1 2 "createdAt" "desc" none).1.length ≤ 2
        ∧ ((controllerGetAllPosts
          { posts := [{ id := 0, userId := 1, content := "a" },
                      { id := 1, userId := 1, content := "b" },
                      { id := 2, userId := 1, content := "c" }] }
          1 2 "createdAt" "desc" none).2.hasNextPage = true
          ↔ 1 * 2 < (controllerGetAllPosts
          { posts := [{ id := 0, userId := 1, content := "a" },
                      { id := 1, userId := 1, content := "b" },
                      { id := 2, userId := 1, content := "c" }] }
          1 2 "createdAt" "desc" none).2.totalItems)) :=
  ⟨by decide, by decide,
   (C8_pagination
      { posts := [{ id := 0, userId := 1, content := "a" },
                  { id := 1, userId := 1, content := "b" },
                  { id := 2, userId := 1, content := "c" }] }
      1 2 "createdAt" "desc" none none (by decide) (by decide)).1,
   (C8_pagination
      { posts := [{ id := 0, userId := 1, content := "a" },
                  { id := 1, userId := 1, content := "b" },
                  { id := 2, userId := 1, content := "c" }] }
      1 2 "createdAt" "desc" none none (by decide) (by decide)).2.1⟩

/-! ## C9 — derived contentType -/

/-- C9 counterexample: the third step of the spec's scenario — updating the
post to remove its content while keeping the image — does not resolve the
contentType to `image`: the save is rejected by validation (`content` is
required with minlength 1) and the stored post still carries
`text_image`. -/
theorem C9_counterexample :
    contentTypeRemoveResult
      = Except.error { name := "ValidationError",
                       message := "El contenido del post es obligatorio" }
    ∧ (postFindById contentTypeDB2 0).map PostDoc.contentType = some "text_image" := by
  constructor <;> rfl

/-- C9 (amended): every successful save recomputes `contentType` from the
presence of content and image (`text_image` both, `image` image-only,
`text` otherwise); creating the `¡Hola mundo!` post yields `text` and
adding an image URL yields `text_image`; but removing the content while
keeping the image fails validation, so a successfully saved post is never
tagged `image`. -/
theorem C9_amended_content_type (db db2 : DB) (p p2 : PostDoc) :
    (postSaveExisting db p = Except.ok (db2, p2) →
      p2.contentType = postComputeContentType p.content p.imageUrl
        ∧ p2.contentType ≠ "image")
    ∧ (match contentTypeCreateResult with
       | Except.ok (_, q) => q.contentType = "text"
       | Except.error _ => False)
    ∧ (match contentTypeUpdateResult with
       | Except.ok (_, q) => q.contentType = "text_image"
       | Except.error _ => False)
    ∧ (match contentTypeRemoveResult with
       | Except.ok _ => False
       | Except.error e => e.name = "ValidationError") := by
  refine ⟨?_, by rfl, by rfl, by rfl⟩
  intro h
  by_cases hv : validatePostDoc p = true
  · simp only [postSaveExisting, hv, Bool.not_true, Bool.false_eq_true,
      if_false, Except.ok.injEq, Prod.mk.injEq] at h
    have hp2 : p2 = postPreSave p := h.2.symm
    subst hp2
    refine ⟨rfl, ?_⟩
    have hc : p.content ≠ "" := by
      intro hc
      rw [validatePostDoc] at hv
      simp only [Bool.and_eq_true, decide_eq_true_eq] at hv
      rw [hc] at hv
      have h1 := hv.1
      revert h1
      decide
    simp only [postPreSave, postComputeContentType]
    by_cases hi : imageTruthy p.imageUrl = true
    · simp [hi, hc]
    · simp [hi, hc]
  · simp [postSaveExisting, hv] at h

/-- C9 witness: the amended theorem applied to the concrete second scenario
step (the post with both content and image saved through
`postSaveExisting`). -/
theorem C9_amended_content_type_witness :
    ({ id := 0, userId := 1, content := "¡Hola mundo!",
       imageUrl := some "https://example.com/image.jpg",
       contentType := "text_image" } : PostDoc).contentType
        = postComputeContentType "¡Hola mundo!" (some "https://example.com/image.jpg")
    ∧ ({ id := 0, userId := 1, content := "¡Hola mundo!",
          imageUrl := some "https://example.com/image.jpg",
          contentType := "text_image" } : PostDoc).contentType ≠ "image" :=
  (C9_amended_content_type contentTypeDB1 contentTypeDB2
    { id := 0, userId := 1, content := "¡Hola mundo!",
      imageUrl := some "https://example.com/image.jpg", contentType := "text" }
    { id := 0, userId := 1, content := "¡Hola mundo!",
      imageUrl := some "https://example.com/image.jpg",
      contentType := "text_image" }).1 (by rfl)

/-! ## C6 — login -/

/-- C6: `Login(identifier, password)` looks the user up by email or
username; it fails with a 401 when no user matches, when the matched user
is inactive, and when the password does not match the stored hash; on
success it persists the refreshed last-login timestamp and returns the
shaped user together with an access token and a refresh token for that
user's id.  For an account that stores no hash at all (OAuth-only) the
bcryptjs compare rejects and the failure surfaces as that library error
(a 500 through the error handler), not as a 401 — the mismatch branch
below therefore requires a stored hash. -/
theorem C6_login_flow (db : DB) (idf pw secret rsecret : String)
    (now expire rexpire : Nat) :
    (findUserByEmailOrUsername db idf = none →
      controllerLoginUser db idf pw secret rsecret now expire rexpire
        = Except.error (createError "Credenciales inválidas" 401))
    ∧ (∀ u : UserDoc, findUserByEmailOrUsername db idf = some u →
        u.isActive = false →
      controllerLoginUser db idf pw secret rsecret now expire rexpire
        = Except.error (createError "Cuenta de usuario inactiva" 401))
    ∧ (∀ u : UserDoc, ∀ stored : String,
        findUserByEmailOrUsername db idf = some u →
        u.isActive = true → u.password = some stored →
        bcryptCompare pw stored = false →
      controllerLoginUser db idf pw secret rsecret now expire rexpire
        = Except.error (createError "Credenciales inválidas" 401))
    ∧ (∀ u : UserDoc, findUserByEmailOrUsername db idf = some u →
        u.isActive = true → u.password = none →
      controllerLoginUser db idf pw secret rsecret now expire rexpire
        = Except.error { name := "Error",
                         message := "Illegal arguments: string, undefined" })
    ∧ (∀ u : UserDoc, ∀ stored : String,
        findUserByEmailOrUsername db idf = some u →
        u.isActive = true → u.password = some stored →
        bcryptCompare pw stored = true →
      controllerLoginUser db idf pw secret rsecret now expire rexpire
        = Except.ok ((userUpdateLastLogin db u now).1,
            { user := loginUserView (userUpdateLastLogin db u now).2,
              accessToken := (generateTokens u.id secret rsecret now expire
                rexpire).accessToken,
              refreshToken := (generateTokens u.id secret rsecret now expire
                rexpire).refreshToken })
        ∧ (loginUserView (userUpdateLastLogin db u now).2).lastLogin = some now
        ∧ (generateTokens u.id secret rsecret now expire rexpire).accessToken.payload.id
            = u.id
        ∧ (generateTokens u.id secret rsecret now expire
            rexpire).refreshToken.payload.tokenType = some "refresh") := by
  refine ⟨?_, ?_, ?_, ?_, ?_⟩
  · intro h
    simp [controllerLoginUser, h, exceptThrow, exceptBindError, exceptMapError]
  · intro u h hin
    simp [controllerLoginUser, h, hin, exceptThrow, exceptBindError,
      exceptMapError]
  · intro u stored h hact hpw hcmp
    simp [controllerLoginUser, userComparePassword, h, hact, hpw, hcmp,
      exceptThrow, exceptPure, exceptBindOk, exceptBindError, exceptMapError]
  · intro u h hact hpw
    simp [controllerLoginUser, userComparePassword, h, hact, hpw, exceptThrow,
      exceptPure, exceptBindOk, exceptBindError, exceptMapError]
  · intro u stored h hact hpw hcmp
    refine ⟨?_, rfl, rfl, rfl⟩
    simp [controllerLoginUser, userComparePassword, h, hact, hpw, hcmp,
      exceptThrow, exceptPure, exceptBindOk, exceptBindError, exceptMapOk,
      exceptMapError, userUpdateLastLogin]

/-- C6 witness: a concrete successful login by username updates the
last-login timestamp and returns both tokens. -/
theorem C6_login_flow_witness :
    controllerLoginUser
        { users := [{ id := 1, username := "john", email := "j@x.com",
                      password := some (bcryptHash "Pass123"),
                      firstName := "J", lastName := "D" }] }
        "john" "Pass123" "s" "r" 50 10 20
      = Except.ok ((userUpdateLastLogin
            { users := [{ id := 1, username := "john", email := "j@x.com",
                          password := some (bcryptHash "Pass123"),
                          firstName := "J", lastName := "D" }] }
            { id := 1, username := "john", email := "j@x.com",
              password := some (bcryptHash "Pass123"),
              firstName := "J", lastName := "D" } 50).1,
          { user := loginUserView (userUpdateLastLogin
              { users := [{ id := 1, username := "john", email := "j@x.com",
                            password := some (bcryptHash "Pass123"),
                            firstName := "J", lastName := "D" }] }
              { id := 1, username := "john", email := "j@x.com",
                password := some (bcryptHash "Pass123"),
                firstName := "J", lastName := "D" } 50).2,
            accessToken := (generateTokens 1 "s" "r" 50 10 20).accessToken,
            refreshToken := (generateTokens 1 "s" "r" 50 10 20).refreshToken }) :=
  ((C6_login_flow
      { users := [{ id := 1, username := "john", email := "j@x.com",
                    password := some (bcryptHash "Pass123"),
                    firstName := "J", lastName := "D" }] }
      "john" "Pass123" "s" "r" 50 10 20).2.2.2.2
    { id := 1, username := "john", email := "j@x.com",
      password := some (bcryptHash "Pass123"),
      firstName := "J", lastName := "D" }
    (bcryptHash "Pass123")
    (by rfl) (by rfl) (by rfl) (by decide)).1

/-! ## C2 — double toggle round trip -/

/-- C2: two sequential `ToggleLike` requests by the same user on the same
active post, starting from no like record and any initial counter value,
end with the like inactive (`action` label `unliked`), the post's
`likesCount` back at its initial value, and exactly one like document for
the (user, targetType, targetId) triple. -/
theorem C2_double_toggle (owner liker pid : Nat) (c0 : Int) :
    (match doubleToggle (togglePostDB owner pid c0) liker pid with
     | Except.ok (d2, r1, r2) =>
        r1.action = "liked" ∧ r2.action = "unliked" ∧ r2.like.isActive = false
          ∧ likesCountOf d2 pid = c0
          ∧ (d2.likes.filter (fun l =>
              l.userId == liker && l.targetType == "Post"
                && l.targetId == pid)).length = 1
     | Except.error _ => False) := by
  have h1 : controllerToggleLike (togglePostDB owner pid c0) (some liker) "Post" pid
      = Except.ok ({ posts := [{ id := pid, userId := owner, content := "hola",
                                 likesCount := c0 + 1 }],
                     likes := [{ id := 0, userId := liker, targetType := "Post",
                                 targetId := pid, isActive := true }],
                     nextLikeId := 1 },
                   { like := { id := 0, userId := liker, targetType := "Post",
                               targetId := pid, isActive := true },
                     action := "liked" }) := by
    simp [controllerToggleLike, togglePostDB, resolveUserId, postFindById,
      likeToggleLike, likeFindOne, likeCreate, likePreSave, likeSaveExisting,
      postIncLikes, exceptPure, exceptBindOk, exceptThrow, exceptBindError]
  have h2 : controllerToggleLike
        ({ posts := [{ id := pid, userId := owner, content := "hola",
                       likesCount := c0 + 1 }],
           likes := [{ id := 0, userId := liker, targetType := "Post",
                       targetId := pid, isActive := true }],
           nextLikeId := 1 } : DB) (some liker) "Post" pid
      = Except.ok ({ posts := [{ id := pid, userId := owner, content := "hola",
                                 likesCount := c0 + 1 + -1 }],
                     likes := [{ id := 0, userId := liker, targetType := "Post",
                                 targetId := pid, isActive := false }],
                     nextLikeId := 1 },
                   { like := { id := 0, userId := liker, targetType := "Post",
                               targetId := pid, isActive := false },
                     action := "unliked" }) := by
    simp [controllerToggleLike, resolveUserId, postFindById, likeToggleLike,
      likeFindOne, likeCreate, likePreSave, likeSaveExisting, postIncLikes,
      exceptPure, exceptBindOk, exceptThrow, exceptBindError]
  simp only [doubleToggle, h1, exceptBindOk, h2, exceptPure]
  refine ⟨trivial, trivial, trivial, ?_, ?_⟩
  · simp [likesCountOf, postFindById]
  · simp

/-! ## C3 — counter underflow -/

/-- C3: the request sequence toggle-like, toggle-like, delete-like by one
user on one post drives the post's `likesCount` to −1: `deleteLike`
soft-deletes the (already inactive) like and still applies
`$inc: { likesCount: -1 }`, bypassing the schema `min: 0` bound. -/
theorem C3_counter_underflow :
    likesCountOf counterUnderflowRun 1 = -1
    ∧ likesCountOf counterUnderflowRun 1 < 0 := by
  have h : likesCountOf counterUnderflowRun 1 = -1 := by rfl
  exact ⟨h, by rw [h]; decide⟩

/-! ## C1 — toggle sequences and the counter -/

/-- Closed form of the store after `n` sequential toggles by the same user
on the same post (initial counter 0, no like record): the counter is
`n % 2`, and from the first toggle on there is exactly one like document,
active exactly when `n` is odd. -/
theorem toggleIter_post_closed_form (owner liker tid : Nat) :
    ∀ n : Nat, toggleIter "Post" owner liker tid n =
      { posts := [{ id := tid, userId := owner, content := "hola",
                    likesCount := ((n % 2 : Nat) : Int) }],
        likes := if n = 0 then [] else
          [{ id := 0, userId := liker, targetType := "Post", targetId := tid,
             isActive := n % 2 == 1 }],
        nextLikeId := if n = 0 then 0 else 1 } := by
  intro n
  induction n with
  | zero => simp [toggleIter, toggleTargetDB]
  | succ n ih =>
    have hstep : toggleIter "Post" owner liker tid (n + 1)
        = match controllerToggleLike (toggleIter "Post" owner liker tid n)
            (some liker) "Post" tid with
          | Except.ok (d1, _) => d1
          | Except.error _ => toggleIter "Post" owner liker tid n := rfl
    rw [hstep, ih]
    by_cases h0 : n = 0
    · subst h0
      simp [controllerToggleLike, resolveUserId, postFindById, likeToggleLike,
        likeFindOne, likeCreate, likePreSave, likeSaveExisting, postIncLikes,
        exceptPure, exceptBindOk, exceptThrow, exceptBindError]
    · rcases Nat.mod_two_eq_zero_or_one n with hp | hp
      · have hs : (n + 1) % 2 = 1 := by omega
        simp [controllerToggleLike, resolveUserId, postFindById, likeToggleLike,
          likeFindOne, likeCreate, likePreSave, likeSaveExisting, postIncLikes,
          exceptPure, exceptBindOk, exceptThrow, exceptBindError, h0, hp, hs]
      · have hs : (n + 1) % 2 = 0 := by omega
        simp [controllerToggleLike, resolveUserId, postFindById, likeToggleLike,
          likeFindOne, likeCreate, likePreSave, likeSaveExisting, postIncLikes,
          exceptPure, exceptBindOk, exceptThrow, exceptBindError, h0, hp, hs]

/-- Closed form of the store after `n` sequential toggles by the same user
on the same comment: the same counter and like-state evolution as the post
target, applied to `Comment.likesCount` via the Comment branch of
`toggleLike`. -/
theorem toggleIter_comment_closed_form (owner liker tid : Nat) :
    ∀ n : Nat, toggleIter "Comment" owner liker tid n =
      { comments := [{ id := tid, postId := 0, userId := owner,
                       content := "hola",
                       likesCount := ((n % 2 : Nat) : Int) }],
        likes := if n = 0 then [] else
          [{ id := 0, userId := liker, targetType := "Comment",
             targetId := tid, isActive := n % 2 == 1 }],
        nextLikeId := if n = 0 then 0 else 1 } := by
  intro n
  induction n with
  | zero => simp [toggleIter, toggleTargetDB]
  | succ n ih =>
    have hstep : toggleIter "Comment" owner liker tid (n + 1)
        = match controllerToggleLike (toggleIter "Comment" owner liker tid n)
            (some liker) "Comment" tid with
          | Except.ok (d1, _) => d1
          | Except.error _ => toggleIter "Comment" owner liker tid n := rfl
    rw [hstep, ih]
    by_cases h0 : n = 0
    · subst h0
      simp [controllerToggleLike, resolveUserId, commentFindById,
        likeToggleLike, likeFindOne, likeCreate, likePreSave, likeSaveExisting,
        commentIncLikes, exceptPure, exceptBindOk, exceptThrow, exceptBindError]
    · rcases Nat.mod_two_eq_zero_or_one n with hp | hp
      · have hs : (n + 1) % 2 = 1 := by omega
        simp [controllerToggleLike, resolveUserId, commentFindById,
          likeToggleLike, likeFindOne, likeCreate, likePreSave,
          likeSaveExisting, commentIncLikes, exceptPure, exceptBindOk,
          exceptThrow, exceptBindError, h0, hp, hs]
      · have hs : (n + 1) % 2 = 0 := by omega
        simp [controllerToggleLike, resolveUserId, commentFindById,
          likeToggleLike, likeFindOne, likeCreate, likePreSave,
          likeSaveExisting, commentIncLikes, exceptPure, exceptBindOk,
          exceptThrow, exceptBindError, h0, hp, hs]

theorem targetLikesCountOf_toggleIter (targetType : String)
    (htt : targetType = "Post" ∨ targetType = "Comment")
    (owner liker tid n : Nat) :
    targetLikesCountOf (toggleIter targetType owner liker tid n) targetType tid
      = ((n % 2 : Nat) : Int) := by
  rcases htt with h | h <;> subst h
  · rw [toggleIter_post_closed_form]
    simp [targetLikesCountOf, likesCountOf, postFindById]
  · rw [toggleIter_comment_closed_form]
    simp [targetLikesCountOf, commentLikesCountOf, commentFindById]

theorem likeStateActive_toggleIter (targetType : String)
    (htt : targetType = "Post" ∨ targetType = "Comment")
    (owner liker tid n : Nat) :
    likeStateActive (toggleIter targetType owner liker tid (n + 1)) liker
        targetType tid
      = ((n + 1) % 2 == 1) := by
  rcases htt with h | h <;> subst h
  · rw [toggleIter_post_closed_form]
    simp [likeStateActive, likeFindOne]
  · rw [toggleIter_comment_closed_form]
    simp [likeStateActive, likeFindOne]

theorem countP_range_parity (n : Nat) :
    ((List.range n).countP (fun i => (i + 1) % 2 == 1) = (n + 1) / 2)
    ∧ ((List.range n).countP (fun i => !((i + 1) % 2 == 1)) = n / 2) := by
  induction n with
  | zero => constructor <;> rfl
  | succ n ih =>
    rw [List.range_succ]
    rw [List.countP_append, List.countP_append, ih.1, ih.2]
    rcases Nat.mod_two_eq_zero_or_one n with hp | hp
    · have h1 : ((n + 1) % 2 == 1) = true := by
        have : (n + 1) % 2 = 1 := by omega
        simp [this]
      constructor
      · simp [List.countP_cons, h1]
        omega
      · simp [List.countP_cons, h1]
        omega
    · have h1 : ((n + 1) % 2 == 1) = false := by
        have : (n + 1) % 2 = 0 := by omega
        simp [this]
      constructor
      · simp [List.countP_cons, h1]
        omega
      · simp [List.countP_cons, h1]
        omega

/-- C1: for a sequence of `n` sequential `ToggleLike` requests by the same
user on the same (targetType, targetId) — targetType either `Post` or
`Comment` — starting from no like record and counter 0, the target's final
denormalized `likesCount` equals the number of toggles that left the like
active minus the number that left it inactive, floored at 0, and the
counter is non-negative after every prefix of the sequence. -/
theorem C1_toggle_sequence (targetType : String) (owner liker tid n : Nat)
    (htt : targetType = "Post" ∨ targetType = "Comment") :
    targetLikesCountOf (toggleIter targetType owner liker tid n) targetType tid
      = max ((toggledActiveCount targetType owner liker tid n : Int)
          - (toggledInactiveCount targetType owner liker tid n : Int)) 0
    ∧ ((List.range (n + 1)).all (fun i =>
        decide (0 ≤ targetLikesCountOf (toggleIter targetType owner liker tid i)
          targetType tid))) = true := by
  constructor
  · rw [targetLikesCountOf_toggleIter targetType htt]
    have ha : toggledActiveCount targetType owner liker tid n = (n + 1) / 2 := by
      rw [toggledActiveCount,
        List.countP_congr (fun i _ => by
          rw [likeStateActive_toggleIter targetType htt owner liker tid i])]
      exact (countP_range_parity n).1
    have hb : toggledInactiveCount targetType owner liker tid n = n / 2 := by
      rw [toggledInactiveCount,
        List.countP_congr (fun i _ => by
          rw [likeStateActive_toggleIter targetType htt owner liker tid i])]
      exact (countP_range_parity n).2
    rw [ha, hb]
    rcases Nat.mod_two_eq_zero_or_one n with hp | hp
    · rw [show (n + 1) / 2 = n / 2 from by omega, hp]
      simp
    · rw [show (n + 1) / 2 = n / 2 + 1 from by omega, hp]
      push_cast
      simp
  · rw [List.all_eq_true]
    intro i _
    rw [targetLikesCountOf_toggleIter targetType htt]
    simp
    omega

/-- C1 witness: the theorem applied to a Comment target with three
sequential toggles by user 7 on comment 1 owned by user 9. -/
theorem C1_toggle_sequence_witness :
    targetLikesCountOf (toggleIter "Comment" 9 7 1 3) "Comment" 1
      = max ((toggledActiveCount "Comment" 9 7 1 3 : Int)
          - (toggledInactiveCount "Comment" 9 7 1 3 : Int)) 0
    ∧ ((List.range (3 + 1)).all (fun i =>
        decide (0 ≤ targetLikesCountOf (toggleIter "Comment" 9 7 1 i)
          "Comment" 1))) = true :=
  C1_toggle_sequence "Comment" 9 7 1 3 (Or.inr rfl)

end SocialConnect
